import Mathlib

/-!
Verification of the recipe-analyzer backend (`src/backend/app.py`).

The file embeds the Flask request handlers `analyze_recipe` and
`get_ingredient_database` from `src/backend/app.py` as pure Lean functions
over a JSON value type.  The four analyzer components
(`CalorieEstimator.estimate_calories`, `DifficultyAnalyzer.analyze_difficulty`,
`TimePredictor.predict_time`, `SuggestionGenerator.generate_suggestions`)
live in `utils/`, which is not part of the available sources; they are
modelled from the specification (each such definition is marked
`Modelled from the spec:`).  The handler code itself is translated line by
line from `app.py`.
-/

namespace RecipeAnalyzer

/-- JSON values as produced by Flask's `jsonify`.  Objects are ordered
association lists because the app sets `JSON_SORT_KEYS = False`, so Python's
dict insertion order is preserved. -/
inductive Json where
  | str : String → Json
  | num : ℚ → Json
  | arr : List Json → Json
  | obj : List (String × Json) → Json

/-- Look up a key in a JSON object (first match, as in a Python dict where
keys are unique). -/
def Json.get : Json → String → Option Json
  | .obj kvs, k => kvs.lookup k
  | _, _ => none

/-- The keys of a JSON object, in insertion order. -/
def Json.keys : Json → List String
  | .obj kvs => kvs.map Prod.fst
  | _ => []

/-- Python 3 `round` to an integer: round half to even (banker's rounding),
on an exact rational argument. -/
def pyRound (q : ℚ) : ℤ :=
  let f : ℤ := ⌊q⌋
  let r : ℚ := q - f
  if r < 1/2 then f
  else if 1/2 < r then f + 1
  else if f % 2 = 0 then f else f + 1

/-- Does `k` occur as a prefix of some suffix of the second list? -/
def substrAux (k : List Char) : List Char → Bool
  | [] => k.isEmpty
  | c :: cs => List.isPrefixOf k (c :: cs) || substrAux k cs

/-- Is `k` a contiguous substring of `s` (Python's `k in s`)? -/
def substrB (k s : String) : Bool :=
  substrAux k.toList s.toList

/-- Python `str.strip()`: drop leading and trailing whitespace. -/
def pyStrip (s : String) : String :=
  ⟨((s.data.dropWhile Char.isWhitespace).reverse.dropWhile Char.isWhitespace).reverse⟩

/-- Python `str.lower()`: lowercase every character. -/
def pyLower (s : String) : String :=
  ⟨s.data.map Char.toLower⟩

/-- Split a character list at every delimiter satisfying `p`; `acc` holds
the (reversed) current segment. -/
def splitCharsAux (p : Char → Bool) : List Char → List Char → List (List Char)
  | acc, [] => [acc.reverse]
  | acc, c :: cs =>
    if p c then acc.reverse :: splitCharsAux p [] cs
    else splitCharsAux p (c :: acc) cs

/-! ## CalorieEstimator (modelled from the spec) -/

/-- Modelled from the spec: `CalorieDatabase`, the static mapping from
normalized ingredient keyword to calories-per-typical-unit used by
`CalorieEstimator` (`utils/calorie_estimator.py`, not in the available
sources).  The exact entries are stated by the spec to be tunable
parameters; representative entries are chosen, including the overlapping
pair "chicken" / "chicken broth" discussed in the spec. -/
def CALORIE_DATABASE : List (String × ℕ) :=
  [("chicken", 239), ("chicken broth", 15), ("egg", 78), ("flour", 455),
   ("milk", 103), ("rice", 206), ("sugar", 387), ("butter", 717),
   ("beef", 250), ("cream", 340), ("tomato", 22), ("onion", 40),
   ("cheese", 402), ("potato", 160)]

/-- Modelled from the spec: the fixed generic fallback calorie value an
unmatched ingredient contributes. -/
def DEFAULT_CALORIES : ℕ := 50

/-- Modelled from the spec: normalization before database matching
(lowercase, whitespace-trimmed). -/
def normalizeIngredient (s : String) : String := pyLower (pyStrip s)

/-- Modelled from the spec: longest-keyword-substring matching against the
calorie database.  Among keys that occur as a substring of the normalized
ingredient, the longest key wins; equal-length ties are resolved in favor
of the first-inserted key. -/
def matchIngredient (ing : String) : Option (String × ℕ) :=
  (CALORIE_DATABASE.filter (fun kv => substrB kv.1 (normalizeIngredient ing))).foldl
    (fun best kv =>
      match best with
      | none => some kv
      | some b => if b.1.length < kv.1.length then some kv else some b)
    none

/-- The calorie contribution of a single ingredient string: the matched
database value, or the fallback when no key matches. -/
def ingredientCalories (ing : String) : ℕ :=
  match matchIngredient ing with
  | some kv => kv.2
  | none => DEFAULT_CALORIES

/-- Modelled from the spec: the serving estimate is derived from the
ingredient count by banded thresholds (more ingredients never yields fewer
servings, and the result is always at least 1). -/
def servingsFromCount (n : ℕ) : ℕ :=
  if n ≤ 3 then 2
  else if n ≤ 6 then 4
  else if n ≤ 10 then 6
  else 8

/-- Result of `CalorieEstimator.estimate_calories`. -/
structure CalorieResult where
  total_calories : ℕ
  servings_estimate : ℕ
  breakdown : List (String × ℕ)
  matched : List String
  deriving DecidableEq, Repr

/-- Modelled from the spec: `CalorieEstimator.estimate_calories`.  Each
ingredient's resolved contribution is recorded in `breakdown`;
`total_calories` is their sum; unmatched ingredients contribute the
fallback value; `servings_estimate` comes from the count banding. -/
def estimate_calories (ingredients : List String) : CalorieResult :=
  let breakdown := ingredients.map (fun ing => (ing, ingredientCalories ing))
  { total_calories := (breakdown.map Prod.snd).sum
    servings_estimate := servingsFromCount ingredients.length
    breakdown := breakdown
    matched := ingredients.filter (fun ing => (matchIngredient ing).isSome) }

/-! ## DifficultyAnalyzer (modelled from the spec) -/

/-- Modelled from the spec: the fixed vocabulary of advanced-technique
keywords scanned for by `DifficultyAnalyzer` (`utils/difficulty_analyzer.py`,
not in the available sources). -/
def TECHNIQUE_KEYWORDS : List String :=
  ["julienne", "sous vide", "flambé", "reduction", "fold", "temper"]

/-- Modelled from the spec: split the free-text steps block on
step-boundary delimiters (sentence terminators and newlines) and keep the
non-empty trimmed segments. -/
def splitSteps (steps : String) : List String :=
  (((splitCharsAux (fun c => c = '.' || c = '\n' || c = '!' || c = '?') []
      steps.data).map (fun cs => pyStrip ⟨cs⟩)).filter (fun s => s ≠ ""))

/-- Result of `DifficultyAnalyzer.analyze_difficulty`. -/
structure DifficultyResult where
  difficulty : String
  description : String
  score : ℕ
  factors : List String
  techniques_found : List String
  ingredient_count : ℕ
  step_count : ℕ
  deriving DecidableEq, Repr

/-- Modelled from the spec: fixed description string per difficulty level. -/
def difficultyDescription (level : String) : String :=
  if level = "Easy" then "Simple recipe suitable for beginners"
  else if level = "Medium" then "Moderate recipe requiring some experience"
  else "Complex recipe for experienced cooks"

/-- Modelled from the spec: `DifficultyAnalyzer.analyze_difficulty`.  The
score is a weighted sum of ingredient count, step count and number of
detected techniques, thresholded into Easy/Medium/Hard bands that cover
every score exactly once. -/
def analyze_difficulty (ingredients : List String) (steps : String) :
    DifficultyResult :=
  let ingredient_count := ingredients.length
  let step_count := (splitSteps steps).length
  let techniques := TECHNIQUE_KEYWORDS.filter (fun t => substrB t (pyLower steps))
  let score := 2 * ingredient_count + 3 * step_count + 8 * techniques.length
  let level := if score < 10 then "Easy" else if score < 20 then "Medium" else "Hard"
  { difficulty := level
    description := difficultyDescription level
    score := score
    factors :=
      [toString ingredient_count ++ " ingredients",
       toString step_count ++ " steps",
       toString techniques.length ++ " advanced techniques"]
    techniques_found := techniques
    ingredient_count := ingredient_count
    step_count := step_count }

/-! ## TimePredictor (modelled from the spec) -/

/-- Modelled from the spec: cooking-method keywords with their fixed
typical-duration-in-minutes estimates, used by `TimePredictor`
(`utils/time_predictor.py`, not in the available sources). -/
def METHOD_TIMES : List (String × ℕ) :=
  [("bake", 30), ("roast", 45), ("simmer", 20), ("boil", 15), ("fry", 10),
   ("grill", 15), ("marinate", 60), ("steam", 15)]

/-- Modelled from the spec: fixed per-step base time in minutes. -/
def BASE_MINUTES_PER_STEP : ℕ := 5

/-- Modelled from the spec: the non-zero floor on `total_minutes`. -/
def MINIMUM_MINUTES : ℕ := 5

/-- Result of `TimePredictor.predict_time`. -/
structure TimeResult where
  category : String
  total_minutes : ℕ
  time_display : String
  description : String
  methods_detected : List String
  deriving DecidableEq, Repr

/-- Modelled from the spec: fixed description string per time category. -/
def timeDescription (category : String) : String :=
  if category = "Quick" then "Ready in no time"
  else if category = "Moderate" then "A reasonable time investment"
  else "Plan ahead for this one"

/-- Modelled from the spec: `TimePredictor.predict_time`.  Detected method
durations stack additively with a per-step base time; a zero step count
still yields the non-zero floor. -/
def predict_time (steps : String) (step_count : ℕ) : TimeResult :=
  let methods := METHOD_TIMES.filter (fun kv => substrB kv.1 (pyLower steps))
  let total := max MINIMUM_MINUTES
    (BASE_MINUTES_PER_STEP * step_count + (methods.map Prod.snd).sum)
  let category :=
    if total ≤ 20 then "Quick" else if total ≤ 45 then "Moderate" else "Long"
  let hours := total / 60
  let minutes := total % 60
  { category := category
    total_minutes := total
    time_display :=
      if 60 ≤ total then toString hours ++ " hr " ++ toString minutes ++ " min"
      else toString total ++ " min"
    description := timeDescription category
    methods_detected := methods.map Prod.fst }

/-! ## SuggestionGenerator (modelled from the spec) -/

/-- Modelled from the spec: meat markers that disqualify vegetarian diets. -/
def MEAT_KEYWORDS : List String :=
  ["chicken", "beef", "pork", "fish", "bacon", "lamb"]

/-- Modelled from the spec: dairy/egg markers that disqualify vegan diets. -/
def DAIRY_EGG_KEYWORDS : List String :=
  ["egg", "milk", "cheese", "butter", "cream", "yogurt"]

/-- Modelled from the spec: keywords associated with breakfast dishes. -/
def BREAKFAST_KEYWORDS : List String :=
  ["egg", "pancake", "oat", "toast", "bacon"]

/-- Modelled from the spec: static substitution table for healthier
alternatives. -/
def ALTERNATIVE_TABLE : List (String × String) :=
  [("butter", "Use olive oil instead of butter"),
   ("sugar", "Try honey as a natural sweetener"),
   ("cream", "Swap cream for greek yogurt"),
   ("flour", "Consider whole wheat flour")]

/-- Modelled from the spec: static spice-pairing table. -/
def SPICE_TABLE : List (String × String) :=
  [("chicken", "paprika and thyme"), ("beef", "rosemary and black pepper"),
   ("egg", "chives and black pepper"), ("potato", "garlic and rosemary"),
   ("tomato", "basil and oregano")]

/-- Does some ingredient string contain the keyword (case-insensitively)? -/
def ingredientsContain (ingredients : List String) (kw : String) : Bool :=
  ingredients.any (fun ing => substrB kw (pyLower ing))

/-- Result of `SuggestionGenerator.generate_suggestions`. -/
structure SuggestionResult where
  diet_type : String
  meal_type : String
  healthy_alternatives : List String
  spice_suggestions : List String
  serving_tips : List String
  quick_tip : String
  deriving DecidableEq, Repr

/-- Modelled from the spec: one fixed quick tip per difficulty level. -/
def quickTipFor (difficulty_level : String) : String :=
  if difficulty_level = "Easy" then "Prep all ingredients before you start"
  else if difficulty_level = "Medium" then "Read every step twice before cooking"
  else "Practice the advanced techniques separately first"

/-- Modelled from the spec: `SuggestionGenerator.generate_suggestions`.
Diet and meal type come from keyword rule tables with defined defaults;
alternatives and spices come from static lookup tables in input order;
serving tips derive from the serving estimate (and calorie density); the
quick tip is a fixed function of the difficulty level. -/
def generate_suggestions (ingredients : List String) (steps : String)
    (difficulty_level : String) (total_calories : ℕ)
    (servings_estimate : ℕ) : SuggestionResult :=
  let stepsLower := pyLower steps
  let diet :=
    if MEAT_KEYWORDS.any (ingredientsContain ingredients) then "Non-Vegetarian"
    else if DAIRY_EGG_KEYWORDS.any (ingredientsContain ingredients) then "Vegetarian"
    else "Vegan"
  let meal :=
    if BREAKFAST_KEYWORDS.any
        (fun kw => ingredientsContain ingredients kw || substrB kw stepsLower)
    then "Breakfast" else "Lunch/Dinner"
  let baseTips :=
    if servings_estimate ≤ 2 then ["Perfect for an individual portion or a couple"]
    else if servings_estimate ≤ 4 then ["Good for a small family meal"]
    else ["Scale for a family gathering or meal prep"]
  let tips :=
    if 600 * servings_estimate < total_calories
    then baseTips ++ ["Calorie-dense dish: consider lighter sides"]
    else baseTips
  { diet_type := diet
    meal_type := meal
    healthy_alternatives :=
      (ALTERNATIVE_TABLE.filter (fun kv => ingredientsContain ingredients kv.1)).map
        Prod.snd
    spice_suggestions :=
      (SPICE_TABLE.filter (fun kv => ingredientsContain ingredients kv.1)).map
        Prod.snd
    serving_tips := tips
    quick_tip := quickTipFor difficulty_level }

/-! ## The request handlers (`src/backend/app.py`) -/

/-- The JSON body of a POST to `/api/analyze`, as read by
`analyze_recipe`: each field is `none` when the key is absent from the
request object (Python `data.get` with a default). -/
structure RequestBody where
  recipe_name : Option String
  ingredients : Option (List String)
  steps : Option String

/-- The error envelope `{'status': 'error', 'message': msg}` returned on
validation failures (`app.py` lines 66-87). -/
def errorEnvelope (msg : String) : Json :=
  .obj [("status", .str "error"), ("message", .str msg)]

/-- Serialize the calorie breakdown mapping. -/
def breakdownJson (b : List (String × ℕ)) : Json :=
  .obj (b.map (fun kv => (kv.1, Json.num (kv.2 : ℚ))))

/-- Serialize a list of strings. -/
def strArr (l : List String) : Json :=
  .arr (l.map Json.str)

/-- The `'calories'` section of the response (`app.py` lines 116-123),
including the handler's `per_serving = round(total / servings)`. -/
def caloriesJson (c : CalorieResult) : Json :=
  .obj
    [("total", .num (c.total_calories : ℚ)),
     ("per_serving", .num
       ((pyRound ((c.total_calories : ℚ) / (c.servings_estimate : ℚ))) : ℚ)),
     ("servings", .num (c.servings_estimate : ℚ)),
     ("breakdown", breakdownJson c.breakdown)]

/-- The `'difficulty'` section of the response (`app.py` lines 126-136). -/
def difficultyJson (dd : DifficultyResult) : Json :=
  .obj
    [("level", .str dd.difficulty),
     ("description", .str dd.description),
     ("score", .num (dd.score : ℚ)),
     ("factors", strArr dd.factors),
     ("techniques", strArr dd.techniques_found),
     ("stats", .obj
       [("ingredients", .num (dd.ingredient_count : ℚ)),
        ("steps", .num (dd.step_count : ℚ))])]

/-- The `'time'` section of the response (`app.py` lines 139-145). -/
def timeJson (t : TimeResult) : Json :=
  .obj
    [("category", .str t.category),
     ("total_minutes", .num (t.total_minutes : ℚ)),
     ("display", .str t.time_display),
     ("description", .str t.description),
     ("methods", strArr t.methods_detected)]

/-- The `'suggestions'` section of the response (`app.py` lines 148-155). -/
def suggestionsJson (s : SuggestionResult) : Json :=
  .obj
    [("diet_type", .str s.diet_type),
     ("meal_type", .str s.meal_type),
     ("healthy_alternatives", strArr s.healthy_alternatives),
     ("spice_recommendations", strArr s.spice_suggestions),
     ("serving_tips", strArr s.serving_tips),
     ("quick_tip", .str s.quick_tip)]

/-- The success response of `analyze_recipe` (`app.py` lines 92-157): the
four components are invoked in order on the validated input and their
results assembled into the nested response object. -/
def successResponse (recipe_name : String) (ingredients : List String)
    (steps : String) : Json :=
  let calorie_data := estimate_calories ingredients
  let difficulty_data := analyze_difficulty ingredients steps
  let time_data := predict_time steps difficulty_data.step_count
  let suggestions := generate_suggestions ingredients steps
    difficulty_data.difficulty calorie_data.total_calories
    calorie_data.servings_estimate
  .obj
    [("status", .str "success"),
     ("recipe_name", .str recipe_name),
     ("analysis", .obj
       [("calories", caloriesJson calorie_data),
        ("difficulty", difficultyJson difficulty_data),
        ("time", timeJson time_data),
        ("suggestions", suggestionsJson suggestions)])]

/-- The `/api/analyze` handler `analyze_recipe` (`app.py` lines 55-166).
`none` models `request.get_json()` returning no JSON body.  The result is
the response body together with the HTTP status code. -/
def analyze_recipe (data : Option RequestBody) : Json × ℕ :=
  match data with
  | none => (errorEnvelope "No data provided", 400)
  | some d =>
    let recipe_name := d.recipe_name.getD "Untitled Recipe"
    let rawIngredients := d.ingredients.getD []
    let steps := d.steps.getD ""
    if rawIngredients.isEmpty then
      (errorEnvelope "Please provide at least one ingredient", 400)
    else if pyStrip steps = "" then
      (errorEnvelope "Please provide cooking steps", 400)
    else
      (successResponse recipe_name
        ((rawIngredients.map pyStrip).filter (fun s => s ≠ "")) steps, 200)

/-- The ingredient list actually passed to the components: each entry
stripped, empty entries dropped (`app.py` line 90). -/
def filteredIngredients (d : RequestBody) : List String :=
  ((d.ingredients.getD []).map pyStrip).filter (fun s => s ≠ "")

/-- The `/api/ingredients` handler `get_ingredient_database`
(`app.py` lines 169-186): the sorted list of calorie-database keys with
their count.  Python's stable `sorted` is modelled by insertion sort on
the lexicographic string order. -/
def get_ingredient_database : Json × ℕ :=
  let ingredients := CALORIE_DATABASE.map Prod.fst
  (.obj
    [("status", .str "success"),
     ("count", .num (ingredients.length : ℚ)),
     ("ingredients", strArr (List.insertionSort (· ≤ ·) ingredients))],
   200)

/-- Follow a path of keys through nested JSON objects. -/
def Json.getPath (j : Json) (path : List String) : Option Json :=
  path.foldl (fun acc k => acc.bind (fun x => Json.get x k)) (some j)

/-! ## Theorems -/

/-- On the success path (non-empty raw ingredient list, non-blank steps)
`analyze_recipe` returns the assembled success response with HTTP 200. -/
theorem analyze_recipe_eq_success (d : RequestBody)
    (h1 : (d.ingredients.getD []).isEmpty = false)
    (h2 : pyStrip (d.steps.getD "") ≠ "") :
    analyze_recipe (some d) =
      (successResponse (d.recipe_name.getD "Untitled Recipe")
        (filteredIngredients d) (d.steps.getD ""), 200) := by
  unfold analyze_recipe filteredIngredients
  simp [h1, h2]

/-- Claim C1, counterexample.  A request whose ingredient list is the non-empty
whitespace-only list `["   "]` is NOT rejected: the handler returns HTTP
200 with a success body, so the analyzer components are invoked (on the
empty filtered list).  The validation at `app.py` line 77 checks the raw
list for emptiness before the whitespace filter at line 90 runs. -/
theorem whitespace_ingredients_not_rejected :
    (analyze_recipe (some ⟨none, some ["   "], some "Mix well."⟩)).2 = 200 ∧
    Json.get (analyze_recipe (some ⟨none, some ["   "], some "Mix well."⟩)).1
      "status" = some (.str "success") :=
  ⟨rfl, rfl⟩

/-- Claim C1, amended.  For a request with non-blank steps, the handler rejects
with the ingredient error envelope exactly when the raw (untrimmed)
ingredient list is empty; any non-empty raw list — even one containing
only whitespace strings — passes validation and the analyzers run,
yielding a success response. -/
theorem rejects_iff_raw_ingredients_empty (d : RequestBody)
    (hsteps : pyStrip (d.steps.getD "") ≠ "") :
    (d.ingredients.getD [] = [] →
      analyze_recipe (some d) =
        (errorEnvelope "Please provide at least one ingredient", 400)) ∧
    (d.ingredients.getD [] ≠ [] →
      (analyze_recipe (some d)).2 = 200 ∧
      Json.get (analyze_recipe (some d)).1 "status" = some (.str "success")) := by
  constructor
  · intro h
    unfold analyze_recipe
    simp [h]
  · intro h
    have h1 : (d.ingredients.getD []).isEmpty = false := by
      simpa [List.isEmpty_iff] using h
    rw [analyze_recipe_eq_success d h1 hsteps]
    exact ⟨rfl, rfl⟩

/-- Claim C1, witness for the amended theorem at the whitespace-only list. -/
theorem rejects_iff_raw_ingredients_empty_witness :
    (pyStrip "Stir." ≠ "") ∧
    ((analyze_recipe (some ⟨none, some ["   "], some "Stir."⟩)).2 = 200 ∧
     Json.get (analyze_recipe (some ⟨none, some ["   "], some "Stir."⟩)).1
       "status" = some (.str "success")) :=
  ⟨by decide,
   (rejects_iff_raw_ingredients_empty ⟨none, some ["   "], some "Stir."⟩
     (by decide)).2 (by decide)⟩

/-- Claim C2.  In every success response, `calories.per_serving` is the Python
`round` of `total_calories / servings_estimate`, both taken from the
`CalorieResult` returned by `estimate_calories` on the filtered
ingredient list. -/
theorem per_serving_eq_round_div (d : RequestBody)
    (h1 : (d.ingredients.getD []).isEmpty = false)
    (h2 : pyStrip (d.steps.getD "") ≠ "") :
    Json.getPath (analyze_recipe (some d)).1
      ["analysis", "calories", "per_serving"] =
      some (.num ((pyRound
        (((estimate_calories (filteredIngredients d)).total_calories : ℚ) /
         ((estimate_calories (filteredIngredients d)).servings_estimate : ℚ))) : ℚ)) := by
  rw [analyze_recipe_eq_success d h1 h2]
  rfl

/-- Claim C2, witness at the spec's example recipe. -/
theorem per_serving_eq_round_div_witness :
    ((["2 eggs", "1 cup flour", "1 cup milk"] : List String).isEmpty = false) ∧
    (pyStrip "Whisk eggs. Add flour and milk. Fry in pan for 5 minutes." ≠ "") ∧
    Json.getPath (analyze_recipe (some ⟨some "Pancakes",
        some ["2 eggs", "1 cup flour", "1 cup milk"],
        some "Whisk eggs. Add flour and milk. Fry in pan for 5 minutes."⟩)).1
      ["analysis", "calories", "per_serving"] =
      some (.num ((pyRound
        (((estimate_calories (filteredIngredients ⟨some "Pancakes",
            some ["2 eggs", "1 cup flour", "1 cup milk"],
            some "Whisk eggs. Add flour and milk. Fry in pan for 5 minutes."⟩)).total_calories : ℚ) /
         ((estimate_calories (filteredIngredients ⟨some "Pancakes",
            some ["2 eggs", "1 cup flour", "1 cup milk"],
            some "Whisk eggs. Add flour and milk. Fry in pan for 5 minutes."⟩)).servings_estimate : ℚ))) : ℚ)) :=
  ⟨by decide, by decide,
   per_serving_eq_round_div ⟨some "Pancakes",
     some ["2 eggs", "1 cup flour", "1 cup milk"],
     some "Whisk eggs. Add flour and milk. Fry in pan for 5 minutes."⟩
     (by decide) (by decide)⟩

/-- Claim C3.  The core enforces `servings_estimate ≥ 1` on every
`CalorieResult` (including the empty ingredient list), so the denominator
of the `per_serving` division is never zero. -/
theorem servings_estimate_never_zero (ingredients : List String) :
    1 ≤ (estimate_calories ingredients).servings_estimate ∧
    ((estimate_calories ingredients).servings_estimate : ℚ) ≠ 0 := by
  have h : 1 ≤ (estimate_calories ingredients).servings_estimate := by
    unfold estimate_calories servingsFromCount
    dsimp only
    split_ifs <;> omega
  refine ⟨h, ?_⟩
  exact_mod_cast Nat.one_le_iff_ne_zero.mp h

/-- Claim C4.  The components are composed in the fixed forward order:
`estimate_calories` and `analyze_difficulty` see only the validated
input; `predict_time` receives exactly the `step_count` produced by
`analyze_difficulty`; `generate_suggestions` receives the ingredients,
steps, the difficulty level, and the calorie totals and servings. -/
theorem pipeline_forward_data_flow (d : RequestBody)
    (h1 : (d.ingredients.getD []).isEmpty = false)
    (h2 : pyStrip (d.steps.getD "") ≠ "") :
    Json.getPath (analyze_recipe (some d)).1 ["analysis", "calories"] =
      some (caloriesJson (estimate_calories (filteredIngredients d))) ∧
    Json.getPath (analyze_recipe (some d)).1 ["analysis", "difficulty"] =
      some (difficultyJson
        (analyze_difficulty (filteredIngredients d) (d.steps.getD ""))) ∧
    Json.getPath (analyze_recipe (some d)).1 ["analysis", "time"] =
      some (timeJson (predict_time (d.steps.getD "")
        (analyze_difficulty (filteredIngredients d) (d.steps.getD "")).step_count)) ∧
    Json.getPath (analyze_recipe (some d)).1 ["analysis", "suggestions"] =
      some (suggestionsJson (generate_suggestions (filteredIngredients d)
        (d.steps.getD "")
        (analyze_difficulty (filteredIngredients d) (d.steps.getD "")).difficulty
        (estimate_calories (filteredIngredients d)).total_calories
        (estimate_calories (filteredIngredients d)).servings_estimate)) := by
  rw [analyze_recipe_eq_success d h1 h2]
  exact ⟨rfl, rfl, rfl, rfl⟩

/-- Claim C4, witness at a concrete recipe. -/
theorem pipeline_forward_data_flow_witness :
    ((["rice", "chicken"] : List String).isEmpty = false) ∧
    (pyStrip "Boil rice. Grill chicken." ≠ "") ∧
    Json.getPath (analyze_recipe (some ⟨none, some ["rice", "chicken"],
        some "Boil rice. Grill chicken."⟩)).1 ["analysis", "time"] =
      some (timeJson (predict_time "Boil rice. Grill chicken."
        (analyze_difficulty (filteredIngredients ⟨none, some ["rice", "chicken"],
          some "Boil rice. Grill chicken."⟩) "Boil rice. Grill chicken.").step_count)) :=
  ⟨by decide, by decide,
   (pipeline_forward_data_flow ⟨none, some ["rice", "chicken"],
     some "Boil rice. Grill chicken."⟩ (by decide) (by decide)).2.2.1⟩

/-- Claim C5.  Every success response carries exactly the specified nested
field names, in order, and the whole `analysis` object is assembled from
the four component results. -/
theorem response_fields_exact (d : RequestBody)
    (h1 : (d.ingredients.getD []).isEmpty = false)
    (h2 : pyStrip (d.steps.getD "") ≠ "") :
    ((analyze_recipe (some d)).1).keys = ["status", "recipe_name", "analysis"] ∧
    (Json.getPath (analyze_recipe (some d)).1 ["analysis"]).map Json.keys =
      some ["calories", "difficulty", "time", "suggestions"] ∧
    (Json.getPath (analyze_recipe (some d)).1 ["analysis", "calories"]).map
      Json.keys = some ["total", "per_serving", "servings", "breakdown"] ∧
    (Json.getPath (analyze_recipe (some d)).1 ["analysis", "difficulty"]).map
      Json.keys =
      some ["level", "description", "score", "factors", "techniques", "stats"] ∧
    (Json.getPath (analyze_recipe (some d)).1
      ["analysis", "difficulty", "stats"]).map Json.keys =
      some ["ingredients", "steps"] ∧
    (Json.getPath (analyze_recipe (some d)).1 ["analysis", "time"]).map
      Json.keys =
      some ["category", "total_minutes", "display", "description", "methods"] ∧
    (Json.getPath (analyze_recipe (some d)).1 ["analysis", "suggestions"]).map
      Json.keys =
      some ["diet_type", "meal_type", "healthy_alternatives",
        "spice_recommendations", "serving_tips", "quick_tip"] ∧
    Json.getPath (analyze_recipe (some d)).1 ["analysis"] =
      some (.obj
        [("calories", caloriesJson (estimate_calories (filteredIngredients d))),
         ("difficulty", difficultyJson
           (analyze_difficulty (filteredIngredients d) (d.steps.getD ""))),
         ("time", timeJson (predict_time (d.steps.getD "")
           (analyze_difficulty (filteredIngredients d)
             (d.steps.getD "")).step_count)),
         ("suggestions", suggestionsJson (generate_suggestions
           (filteredIngredients d) (d.steps.getD "")
           (analyze_difficulty (filteredIngredients d)
             (d.steps.getD "")).difficulty
           (estimate_calories (filteredIngredients d)).total_calories
           (estimate_calories (filteredIngredients d)).servings_estimate))]) := by
  rw [analyze_recipe_eq_success d h1 h2]
  exact ⟨rfl, rfl, rfl, rfl, rfl, rfl, rfl, rfl⟩

/-- Claim C5, witness at a concrete recipe. -/
theorem response_fields_exact_witness :
    ((["tomato"] : List String).isEmpty = false) ∧
    (pyStrip "Chop tomato." ≠ "") ∧
    ((analyze_recipe (some ⟨none, some ["tomato"], some "Chop tomato."⟩)).1).keys =
      ["status", "recipe_name", "analysis"] ∧
    (Json.getPath (analyze_recipe (some ⟨none, some ["tomato"],
        some "Chop tomato."⟩)).1 ["analysis"]).map Json.keys =
      some ["calories", "difficulty", "time", "suggestions"] :=
  ⟨by decide, by decide,
   (response_fields_exact ⟨none, some ["tomato"], some "Chop tomato."⟩
     (by decide) (by decide)).1,
   (response_fields_exact ⟨none, some ["tomato"], some "Chop tomato."⟩
     (by decide) (by decide)).2.1⟩

/-- Claim C6.  The analyze handler is total: on every request (including a
missing body) it returns a JSON envelope with a `status` of `success`
(HTTP 200) or `error` (HTTP 400); it never propagates an error to its
caller. -/
theorem analyze_recipe_total_envelope (data : Option RequestBody) :
    ((analyze_recipe data).2 = 200 ∧
      Json.get (analyze_recipe data).1 "status" = some (.str "success")) ∨
    ((analyze_recipe data).2 = 400 ∧
      Json.get (analyze_recipe data).1 "status" = some (.str "error")) := by
  cases data with
  | none => exact Or.inr ⟨rfl, rfl⟩
  | some d =>
    unfold analyze_recipe
    dsimp only
    split
    · exact Or.inr ⟨rfl, rfl⟩
    · split
      · exact Or.inr ⟨rfl, rfl⟩
      · exact Or.inl ⟨rfl, rfl⟩

/-- Claim C7.  The ingredient-database endpoint returns all keys of the
calorie database sorted ascending, with a count equal to the number of
keys, and HTTP 200.  (The database itself is an immutable definition, so
the read cannot modify it.) -/
theorem ingredient_database_sorted_keys :
    Json.get (get_ingredient_database).1 "count" =
      some (.num ((CALORIE_DATABASE.map Prod.fst).length : ℚ)) ∧
    (∃ l : List String,
      Json.get (get_ingredient_database).1 "ingredients" = some (strArr l) ∧
      l.Sorted (· ≤ ·) ∧ l.Perm (CALORIE_DATABASE.map Prod.fst)) ∧
    (get_ingredient_database).2 = 200 := by
  refine ⟨rfl,
    ⟨List.insertionSort (· ≤ ·) (CALORIE_DATABASE.map Prod.fst), rfl, ?_, ?_⟩,
    rfl⟩
  · exact List.sorted_insertionSort _ _
  · exact List.perm_insertionSort _ _

/-- Claim C8.  Determinism: every component and the whole handler are pure
functions of their arguments, so identical inputs yield identical
outputs (there is no randomness, time, or hidden mutable state in the
model). -/
theorem components_deterministic :
    (∀ data : Option RequestBody, analyze_recipe data = analyze_recipe data) ∧
    (∀ ings : List String, estimate_calories ings = estimate_calories ings) ∧
    (∀ (ings : List String) (steps : String),
      analyze_difficulty ings steps = analyze_difficulty ings steps) ∧
    (∀ (steps : String) (n : ℕ), predict_time steps n = predict_time steps n) ∧
    (∀ (ings : List String) (steps lvl : String) (cal srv : ℕ),
      generate_suggestions ings steps lvl cal srv =
        generate_suggestions ings steps lvl cal srv) :=
  ⟨fun _ => rfl, fun _ => rfl, fun _ _ => rfl, fun _ _ => rfl,
   fun _ _ _ _ _ => rfl⟩

/-- Claim C9.  For every ingredient list, the estimator's `total_calories` is
non-negative and equals the sum of the values in its `breakdown`. -/
theorem total_calories_eq_breakdown_sum (ingredients : List String) :
    0 ≤ (estimate_calories ingredients).total_calories ∧
    (estimate_calories ingredients).total_calories =
      ((estimate_calories ingredients).breakdown.map Prod.snd).sum :=
  ⟨Nat.zero_le _, rfl⟩

/-- Claim C10.  The default name "Untitled Recipe" is used only when the
`recipe_name` key is absent; a present value — even the empty string —
is echoed back verbatim in the success response. -/
theorem recipe_name_default_only_when_absent (d : RequestBody)
    (h1 : (d.ingredients.getD []).isEmpty = false)
    (h2 : pyStrip (d.steps.getD "") ≠ "") :
    Json.get (analyze_recipe (some d)).1 "recipe_name" =
      some (.str (d.recipe_name.getD "Untitled Recipe")) ∧
    (∀ s : String, d.recipe_name = some s →
      Json.get (analyze_recipe (some d)).1 "recipe_name" = some (.str s)) ∧
    (d.recipe_name = none →
      Json.get (analyze_recipe (some d)).1 "recipe_name" =
        some (.str "Untitled Recipe")) := by
  rw [analyze_recipe_eq_success d h1 h2]
  refine ⟨rfl, ?_, ?_⟩
  · intro s hs
    rw [hs]
    rfl
  · intro hn
    rw [hn]
    rfl

/-- Claim C10, witness: a present-but-empty `recipe_name` is echoed back as the
empty string, not replaced by the default. -/
theorem recipe_name_empty_echoed_witness :
    Json.get (analyze_recipe (some ⟨some "", some ["rice"],
        some "Boil rice."⟩)).1 "recipe_name" = some (.str "") :=
  (recipe_name_default_only_when_absent ⟨some "", some ["rice"], some "Boil rice."⟩
    (by decide) (by decide)).2.1 "" rfl

end RecipeAnalyzer
